import Mathlib

/-!
Verification of the rule-checking engine of `analyser.py` (StaticCodeAnalyzer).

Lines of the analysed source file are modelled as `List Char` (a physical
line, trailing newline included when present, exactly as Python's file
iteration yields it).  Each line rule of the Python class is translated to a
function returning `Option (String × String)`: `some (code, message)` models
the rule raising its `StaticCodeAnalyzerError` with those two arguments,
`none` models a normal return.  The stateful blank-line rule threads the
instance counter `__count_blank_lines_in_row` explicitly.
-/

namespace Analyser

/-- The characters Python's `str.strip` / `str.lstrip` (no argument) remove:
ASCII whitespace. -/
def isPySpace (c : Char) : Bool :=
  c == ' ' || c == '\t' || c == '\n' || c == '\x0b' || c == '\x0c' || c == '\r'

/-- Python `line.lstrip()` on a line. -/
def pyLstrip (s : List Char) : List Char := s.dropWhile isPySpace

/-- Python `line.strip() == ""`: the line is empty or whitespace-only. -/
def pyIsBlank (s : List Char) : Bool := s.all isPySpace

/-- Python `s.rstrip(c)` for a single strip character `c`. -/
def rstripChar (c : Char) (s : List Char) : List Char :=
  (s.reverse.dropWhile (· == c)).reverse

/-- One reported violation, as `__print_error` formats it
(`{file}: Line {number_line}: {code} {error}`). -/
structure Diagnostic where
  file : String
  line_number : Nat
  code : String
  message : String
deriving DecidableEq, Repr

/-- Build the Diagnostic a raised `(code, message)` pair turns into for a
given file and line number. -/
def mkDiag (file : String) (n : Nat) (p : String × String) : Diagnostic :=
  ⟨file, n, p.1, p.2⟩

/-- `__check_long`: S001 when the physical line has more than 79 characters. -/
def check_long (line : List Char) : Option (String × String) :=
  if line.length > 79 then some ("S001", "Too long") else none

/-- `__check_indentation`: S002 when the line is not exactly `"\n"` and its
leading-whitespace count (`len(line) - len(line.lstrip())`) is not a multiple
of four. -/
def check_indentation (line : List Char) : Option (String × String) :=
  if line = ['\n'] then none
  else if (line.length - (pyLstrip line).length) % 4 = 0 then none
  else some ("S002", "Indentation is not a multiple of four")

/-- `__check_semicolon`: S003 when the part of the line before the first `#`
(`line.split("#")[0]`), with trailing newlines then trailing spaces stripped,
ends with `;`. -/
def check_semicolon (line : List Char) : Option (String × String) :=
  let pre := line.takeWhile (· != '#')
  if (rstripChar ' ' (rstripChar '\n' pre)).getLast? = some ';' then
    some ("S003", "Unnecessary semicolon")
  else none

/-- The tail condition ` ?#` of the S004 regex: the remaining characters start
with `#`, or with one space then `#`. -/
def hashAfterAtMostOneSpace (t : List Char) : Bool :=
  match t with
  | c :: rest =>
      c == '#' ||
        (c == ' ' && (match rest with | c2 :: _ => c2 == '#' | [] => false))
  | [] => false

/-- `re.match(r"[^#]*[^ ]( ?#)", line)` as a backtracking matcher anchored at
the start of the line: either the current character plays the `[^ ]` (note the
class excludes only the space), or it is consumed by `[^#]*` and matching goes
on one character further. -/
def spacesMatch : List Char → Bool
  | [] => false
  | c :: rest =>
      (c != ' ' && hashAfterAtMostOneSpace rest) || (c != '#' && spacesMatch rest)

/-- `__check_spaces`: S004 when the regex `[^#]*[^ ]( ?#)` matches at the
start of the line. -/
def check_spaces (line : List Char) : Option (String × String) :=
  if spacesMatch line then
    some ("S004", "At least two spaces required before inline")
  else none

/-- The S004 condition as the specification words it, for comparison with the
code's `spacesMatch`: "a non-`#`, non-space character is immediately followed
by zero or one space and then `#`" somewhere in the line. -/
def spec_s004_condition : List Char → Bool
  | c :: rest =>
      (c != '#' && c != ' ' && hashAfterAtMostOneSpace rest)
        || spec_s004_condition rest
  | [] => false

/-- The literal `todo` of the S005 regex, case-insensitively, as a prefix. -/
def matchesTodo (t : List Char) : Bool :=
  match t with
  | c1 :: c2 :: c3 :: c4 :: _ =>
      (c1 == 't' || c1 == 'T') && (c2 == 'o' || c2 == 'O') &&
        (c3 == 'd' || c3 == 'D') && (c4 == 'o' || c4 == 'O')
  | _ => false

/-- After a `#`: the ` *todo` part of the S005 regex (skip spaces, then the
case-insensitive literal). -/
def todoAfterHash : List Char → Bool
  | [] => false
  | c :: rest => if c == ' ' then todoAfterHash rest else matchesTodo (c :: rest)

/-- `re.search(r"(?i)# *todo", line)`: the pattern matches starting at some
position of the line. -/
def searchTodo : List Char → Bool
  | [] => false
  | c :: rest => (c == '#' && todoAfterHash rest) || searchTodo rest

/-- `__check_todo_existing`: S005 when `# *todo` (case-insensitive) occurs in
the line. -/
def check_todo_existing (line : List Char) : Option (String × String) :=
  if searchTodo line then some ("S005", "TODO found") else none

/-- `__check_blank_lines`: on a blank line the instance counter grows and
nothing is raised; on a non-blank line the counter resets to 0, raising S006
when its incoming value exceeds 2.  Returns (new counter, raised pair). -/
def check_blank_lines (counter : Nat) (line : List Char) :
    Nat × Option (String × String) :=
  if pyIsBlank line then (counter + 1, none)
  else if counter > 2 then
    (0, some ("S006", "More than two blank lines preceding a code line"))
  else (0, none)

/-- List-prefix test used to render the anchored regexes of S007a/S007b. -/
def startsWithChars : List Char → List Char → Bool
  | [], _ => true
  | _ :: _, [] => false
  | p :: ps, s :: ss => p == s && startsWithChars ps ss

/-- `__check_class_declaration_spaces`: `re.match(r"class[ ]{2,}", line)`,
i.e. the line starts with `class` followed by at least two spaces. -/
def check_class_declaration_spaces (line : List Char) : Option (String × String) :=
  if startsWithChars "class  ".data line then
    some ("S007", "Too many spaces after 'class'")
  else none

/-- `__check_function_declaration_spaces`: `re.match(r"\s*def[ ]{2,}", line)`.
Since `d` is not whitespace, greedy `\s*` with backtracking matches exactly
the maximal leading-whitespace run, so the regex matches iff after dropping
the leading whitespace the line starts with `def` and two spaces. -/
def check_function_declaration_spaces (line : List Char) : Option (String × String) :=
  if startsWithChars "def  ".data (line.dropWhile isPySpace) then
    some ("S007", "Too many spaces after 'def'")
  else none

/-- The outcome of each registered rule of `__check_funcs`, in registration
order (`__init__`, lines 47-56), on one line with the incoming blank-line
counter. -/
def rule_results (counter : Nat) (line : List Char) :
    List (Option (String × String)) :=
  [check_long line, check_indentation line, check_semicolon line,
   check_spaces line, check_todo_existing line,
   (check_blank_lines counter line).2,
   check_class_declaration_spaces line,
   check_function_declaration_spaces line]

/-- `__check_errors`: every rule of `__check_funcs` runs on the line; each
raised `StaticCodeAnalyzerError` is caught inside the loop and printed, and
the loop then moves on to the next rule, so one line collects one pair per
rule that raised.  Returns (counter after the line, raised pairs in rule
order). -/
def check_errors (counter : Nat) (line : List Char) :
    Nat × List (String × String) :=
  ((check_blank_lines counter line).1, (rule_results counter line).filterMap id)

/-- The line-scanner loop of `run` (lines 63-64): lines are numbered from
`n`, the blank-line counter is threaded from `counter`.  Returns the emitted
diagnostics in order and the counter after the last line. -/
def scan_lines (file : String) : Nat → Nat → List (List Char) → List Diagnostic × Nat
  | counter, _, [] => ([], counter)
  | counter, n, line :: rest =>
      let step := check_errors counter line
      let tail := scan_lines file step.1 (n + 1) rest
      (step.2.map (mkDiag file n) ++ tail.1, tail.2)

/-- The Line Scanner pass on a whole file: lines numbered from 1, counter
starting at 0 (as `__init__` sets it). -/
def line_scanner (file : String) (lines : List (List Char)) : List Diagnostic :=
  (scan_lines file 0 1 lines).1

/-! ## The Tree Inspector: the `ast.walk` pass of `run` (lines 65-71) -/

/-- The syntactic shape of a default-value expression, as far as
`__check_arguments` inspects it: `isinstance(default, (ast.List, ast.Dict,
ast.Set))`. -/
inductive ExprKind
  | listLit
  | dictLit
  | setLit
  | otherExpr
deriving DecidableEq, Repr

/-- An `ast.arg` of `node.args.args`: its name and its own source line (the
line is present in the AST but `__check_arguments` never reads it). -/
structure ArgNode where
  arg : String
  lineno : Nat
deriving DecidableEq, Repr

/-- A default-value expression of `node.args.defaults`: its shape and its own
source line (again unread by the code). -/
structure DefaultNode where
  kind : ExprKind
  lineno : Nat
deriving DecidableEq, Repr

/-- One target of an assignment statement: an `ast.Name` (with its `id` and
`lineno`) or any other target shape. -/
inductive AssignTarget
  | name (id : String) (lineno : Nat)
  | other
deriving DecidableEq, Repr

/-- A direct statement of a function body: an `ast.Assign` with its targets,
or any other statement kind. -/
inductive Stmt
  | assign (targets : List AssignTarget)
  | other
deriving DecidableEq, Repr

/-- An `ast.FunctionDef` node as far as the checks read it. -/
structure FunctionDefNode where
  name : String
  lineno : Nat
  args : List ArgNode
  defaults : List DefaultNode
  body : List Stmt
deriving DecidableEq, Repr

/-- A node yielded by `ast.walk`, classified exactly as the `isinstance`
tests of `run` classify it: `ast.ClassDef`, `ast.FunctionDef`,
`ast.AsyncFunctionDef` (a distinct class, no `isinstance` test matches it),
or any other node kind. -/
inductive AstNode
  | classDef (name : String) (lineno : Nat)
  | functionDef (f : FunctionDefNode)
  | asyncFunctionDef (f : FunctionDefNode)
  | otherNode
deriving DecidableEq, Repr

def isLowerAlpha (c : Char) : Bool := 'a' ≤ c && c ≤ 'z'

def isUpperAlpha (c : Char) : Bool := 'A' ≤ c && c ≤ 'Z'

def isDigitCh (c : Char) : Bool := '0' ≤ c && c ≤ '9'

def isLowerDigit (c : Char) : Bool := isLowerAlpha c || isDigitCh c

/-- `re.match(r"[^A-Z].*", name)` of `__check_class_name`: the name is
nonempty and its first character is not an uppercase letter. -/
def classNameBad (name : List Char) : Bool :=
  match name with
  | [] => false
  | c :: _ => !isUpperAlpha c

/-- The backtracking of `re.match(r"[_]{,2}[^a-z_].*", name)`: `fuel` many
underscores may still be consumed by `[_]{,2}`; at each position either the
current character plays the `[^a-z_]`, or (fuel permitting) it is an
underscore consumed by the bounded repetition. -/
def funcNameBadAux : Nat → List Char → Bool
  | _, [] => false
  | 0, c :: _ => !isLowerAlpha c && c != '_'
  | fuel + 1, c :: rest =>
      (!isLowerAlpha c && c != '_') || (c == '_' && funcNameBadAux fuel rest)

/-- `re.match(r"[_]{,2}[^a-z_].*", name)` of `__check_function_name`. -/
def funcNameBad (name : List Char) : Bool := funcNameBadAux 2 name

/-- `re.match(r"[^a-z_].*", name)` of `__check_arguments`: the name is
nonempty and its first character is neither a lowercase letter nor an
underscore. -/
def argNameBad (name : List Char) : Bool :=
  match name with
  | [] => false
  | c :: _ => !isLowerAlpha c && c != '_'

/-- The deterministic automaton of `[a-z0-9]+(_[a-z0-9]+)*` run to the end of
the name (the alphabets of `[a-z0-9]` and `_` are disjoint, and variable
names contain no newline, so greedy matching with the final `$` is
deterministic): `seen` records whether the current segment already has a
character. -/
def snakeGroupsAux : List Char → Bool → Bool
  | [], seen => seen
  | c :: rest, seen =>
      if c == '_' then seen && snakeGroupsAux rest false
      else if isLowerDigit c then snakeGroupsAux rest true
      else false

/-- `re.match(r"^[a-z][a-z0-9]+(_[a-z0-9]+)*$", name)` of
`__check_function_variables`: full match of the snake_case pattern. -/
def snakeVariableOk (name : List Char) : Bool :=
  match name with
  | [] => false
  | c :: rest => isLowerAlpha c && snakeGroupsAux rest false

/-- `__check_class_name`: S008 at the class's line when the name does not
start with an uppercase letter. -/
def check_class_name (file : String) (name : String) (lineno : Nat) :
    List Diagnostic :=
  if classNameBad name.data then
    [⟨file, lineno, "S008", "Class name '" ++ name ++ "' should use CamelCase"⟩]
  else []

/-- `__check_function_name`: S009 at the function's line when the S009 regex
matches the name. -/
def check_function_name (file : String) (f : FunctionDefNode) :
    List Diagnostic :=
  if funcNameBad f.name.data then
    [⟨file, f.lineno, "S009",
      "Function name '" ++ f.name ++ "' should use snake_case"⟩]
  else []

/-- Whether a default's shape passes the `isinstance(default, (ast.List,
ast.Dict, ast.Set))` test. -/
def isMutableDefault (k : ExprKind) : Bool :=
  match k with
  | ExprKind.listLit => true
  | ExprKind.dictLit => true
  | ExprKind.setLit => true
  | ExprKind.otherExpr => false

/-- `__check_arguments`: S010 at the function's line for each positional
argument whose name matches `[^a-z_].*`, then S012 at the function's line for
each default whose shape is a list, dict or set literal. -/
def check_arguments (file : String) (f : FunctionDefNode) : List Diagnostic :=
  (f.args.filterMap fun a =>
    if argNameBad a.arg.data then
      some ⟨file, f.lineno, "S010",
        "Argument name '" ++ a.arg ++ "' should be snake_case"⟩
    else none)
  ++ (f.defaults.filterMap fun d =>
    if isMutableDefault d.kind then
      some ⟨file, f.lineno, "S012", "The default argument value is mutable"⟩
    else none)

/-- The `isinstance(a, ast.Assign)` filter of the comprehension
`[a for a in node.body if isinstance(a, ast.Assign)]`: an assignment
statement contributes its target list. -/
def assignTargets : Stmt → Option (List AssignTarget)
  | Stmt.assign ts => some ts
  | Stmt.other => none

/-- The `isinstance(a, ast.Name)` filter of the comprehension
`[a for a in child.targets if isinstance(a, ast.Name)]`: a Name target
contributes its `id` and `lineno`. -/
def nameTarget : AssignTarget → Option (String × Nat)
  | AssignTarget.name id ln => some (id, ln)
  | AssignTarget.other => none

/-- `__check_function_variables`: over the `ast.Assign` statements of the
direct body, over their `ast.Name` targets, S011 at the target's own line for
each name the snake_case pattern does not fully match. -/
def check_function_variables (file : String) (f : FunctionDefNode) :
    List Diagnostic :=
  ((f.body.filterMap assignTargets).map fun ts =>
    (ts.filterMap nameTarget).filterMap fun v =>
      if snakeVariableOk v.1.data then none
      else
        some ⟨file, v.2, "S011",
          "Variable '" ++ v.1 ++ "' in function should be snake_case"⟩).flatten

/-- The `isinstance` dispatch of `run` (lines 65-71) on one walked node:
class definitions get the class-name check, function definitions get the
function-name, argument and function-variable checks in that order, every
other node kind (async function definitions included) gets nothing. -/
def visit_node (file : String) : AstNode → List Diagnostic
  | AstNode.classDef name lineno => check_class_name file name lineno
  | AstNode.functionDef f =>
      check_function_name file f ++ check_arguments file f
        ++ check_function_variables file f
  | AstNode.asyncFunctionDef _ => []
  | AstNode.otherNode => []

/-- The Tree Inspector pass: the walked nodes in `ast.walk` order, each
visited by the dispatch of `run`. -/
def tree_inspector (file : String) (nodes : List AstNode) : List Diagnostic :=
  (nodes.map (visit_node file)).flatten

/-- One parsed input file: its physical lines and its walked AST nodes. -/
structure SourceFile where
  lines : List (List Char)
  nodes : List AstNode

/-- The state of a `StaticCodeAnalyzer` instance: the `path_file` and
`__count_blank_lines_in_row` attributes. -/
structure StaticCodeAnalyzer where
  path_file : String
  count_blank_lines_in_row : Nat
deriving DecidableEq, Repr

/-- `StaticCodeAnalyzer.__init__` (lines 45-57): the counter starts at 0. -/
def StaticCodeAnalyzer.init (path : String) : StaticCodeAnalyzer :=
  { path_file := path, count_blank_lines_in_row := 0 }

/-- `StaticCodeAnalyzer.run`: the line-scanner pass then the tree-inspector
pass, returning the emitted diagnostics in order together with the instance
as `run` leaves it. -/
def StaticCodeAnalyzer.run (a : StaticCodeAnalyzer) (src : SourceFile) :
    List Diagnostic × StaticCodeAnalyzer :=
  let scanned := scan_lines a.path_file a.count_blank_lines_in_row 1 src.lines
  (scanned.1 ++ tree_inspector a.path_file src.nodes,
   { a with count_blank_lines_in_row := scanned.2 })

/-- `call_analyzer_error` of the driver (lines 161-164): a fresh instance is
constructed for the path and run once. -/
def call_analyzer_error (path : String) (src : SourceFile) : List Diagnostic :=
  ((StaticCodeAnalyzer.init path).run src).1

/-! ## General helper lemmas -/

lemma length_filterMap_id {α : Type} (l : List (Option α)) :
    (l.filterMap id).length = (l.filter Option.isSome).length := by
  induction l with
  | nil => rfl
  | cons o t ih => cases o <;> simp [ih, List.filter_cons]

lemma filterMap_ite_eq_map_filter {α β : Type} (l : List α) (p : α → Bool)
    (g : α → β) :
    (l.filterMap fun a => if p a then some (g a) else none)
      = (l.filter p).map g := by
  induction l with
  | nil => rfl
  | cons a t ih =>
      by_cases h : p a <;> simp [List.filter_cons, h, ih]

/-! ## C1: the Line Scanner's per-line control flow

`__check_errors` (lines 73-78) catches each rule's exception inside the
`for func in self.__check_funcs` loop, so a firing rule does not stop the
loop: the remaining rules still run on the same line, and a line can emit
several diagnostics, one per firing rule.  The claimed first-match-wins
short-circuit is refuted on the line `" x = 1;\n"`, which emits both S002
and S003. -/

/-- C1 counterexample: the single line `" x = 1;\n"` emits two diagnostics,
S002 and then S003 — the scanner does not stop at the first firing rule, so
a line is not limited to at most one diagnostic. -/
theorem one_line_two_diagnostics :
    (line_scanner "file.py" [" x = 1;\n".data]).map Diagnostic.code
      = ["S002", "S003"]
    ∧ (line_scanner "file.py" [" x = 1;\n".data]).length = 2 := by
  decide

/-- C1 as amended: on every line the rules of `__check_funcs` run in their
fixed registration order and each rule that raises contributes exactly one
diagnostic: the number of emitted pairs equals the number of firing rules,
and a pair is emitted exactly when some rule produced it — emission is
per-rule-independent, not first-match-wins. -/
theorem check_errors_rule_independent (counter : Nat) (line : List Char) :
    (check_errors counter line).2.length
      = ((rule_results counter line).filter Option.isSome).length
    ∧ ∀ p : String × String,
        p ∈ (check_errors counter line).2 ↔ some p ∈ rule_results counter line := by
  constructor
  · exact length_filterMap_id _
  · intro p
    simp [check_errors, List.mem_filterMap]

/-! ## C2: the S009 function-name pattern -/

lemma funcNameBadAux_iff (l : List Char) : ∀ fuel : Nat,
    funcNameBadAux fuel l = true ↔
      ∃ us c rest, l = us ++ c :: rest ∧ us.length ≤ fuel ∧
        (∀ u ∈ us, u = '_') ∧ isLowerAlpha c = false ∧ c ≠ '_' := by
  induction l with
  | nil =>
      intro fuel
      constructor
      · intro h; cases fuel <;> simp [funcNameBadAux] at h
      · rintro ⟨us, c, rest, h, -⟩
        exact absurd h (by simp)
  | cons c0 l' ih =>
      intro fuel
      cases fuel with
      | zero =>
          simp only [funcNameBadAux, Bool.and_eq_true, Bool.not_eq_true',
            bne_iff_ne, ne_eq]
          constructor
          · rintro ⟨h1, h2⟩
            exact ⟨[], c0, l', rfl, by simp, by simp, h1, h2⟩
          · rintro ⟨us, c, rest, heq, hlen, -, h1, h2⟩
            have hus : us = [] := List.length_eq_zero.mp (Nat.le_zero.mp hlen)
            subst hus
            simp only [List.nil_append, List.cons.injEq] at heq
            obtain ⟨rfl, rfl⟩ := heq
            exact ⟨h1, h2⟩
      | succ k =>
          simp only [funcNameBadAux, Bool.or_eq_true, Bool.and_eq_true,
            Bool.not_eq_true', bne_iff_ne, beq_iff_eq, ne_eq]
          constructor
          · rintro (⟨h1, h2⟩ | ⟨rfl, h⟩)
            · exact ⟨[], c0, l', rfl, by simp, by simp, h1, h2⟩
            · obtain ⟨us, c, rest, rfl, hlen, hus, h1, h2⟩ := (ih k).mp h
              refine ⟨'_' :: us, c, rest, rfl, by simpa using hlen, ?_, h1, h2⟩
              intro u hu
              rcases List.mem_cons.mp hu with h | h
              · exact h
              · exact hus u h
          · rintro ⟨us, c, rest, heq, hlen, hus, h1, h2⟩
            cases us with
            | nil =>
                simp only [List.nil_append, List.cons.injEq] at heq
                obtain ⟨rfl, rfl⟩ := heq
                exact Or.inl ⟨h1, h2⟩
            | cons u us' =>
                simp only [List.cons_append, List.cons.injEq] at heq
                obtain ⟨rfl, h'⟩ := heq
                have hu : c0 = '_' := hus c0 (by simp)
                refine Or.inr ⟨hu, (ih k).mpr ⟨us', c, rest, h', ?_, ?_, h1, h2⟩⟩
                · simpa using hlen
                · intro v hv; exact hus v (List.mem_cons_of_mem c0 hv)

/-- C2 counterexample: the function name `___bad` (three leading
underscores) is NOT flagged by the S009 pattern `[_]{,2}[^a-z_].*`, and a
function-definition node named `___bad` yields no diagnostic at all — the
claim says S009 fires on it. -/
theorem triple_underscore_not_flagged :
    funcNameBad "___bad".data = false
    ∧ visit_node "file.py" (AstNode.functionDef ⟨"___bad", 1, [], [], []⟩) = [] :=
  ⟨rfl, rfl⟩

/-- C2 as amended: S009 matches a function name exactly when some prefix of
AT MOST two underscores is followed by a character that is neither a
lowercase letter nor an underscore; with three or more leading underscores
the pattern never matches (the character after at most two underscores is
itself an underscore), so `__Foo` is flagged, `__init__` is not, and
`___bad` is not flagged either. -/
theorem s009_flagged_iff :
    (∀ name : List Char, funcNameBad name = true ↔
        ∃ us c rest, name = us ++ c :: rest ∧ us.length ≤ 2 ∧
          (∀ u ∈ us, u = '_') ∧ isLowerAlpha c = false ∧ c ≠ '_')
    ∧ funcNameBad "__Foo".data = true
    ∧ funcNameBad "__init__".data = false
    ∧ funcNameBad "___bad".data = false :=
  ⟨fun name => funcNameBadAux_iff name 2, by decide, by decide, by decide⟩

/-! ## C3: the blank-line-run rule S006

Each line rule raises a fixed (code, message) pair; these inversion lemmas
record the pair each rule can raise, so that S006 diagnostics can be told
apart from every other rule's. -/

lemma check_long_eq (line : List Char) :
    ∀ p, check_long line = some p → p = ("S001", "Too long") := by
  intro p h
  unfold check_long at h
  split at h
  · exact (Option.some.inj h).symm
  · simp at h

lemma check_indentation_eq (line : List Char) :
    ∀ p, check_indentation line = some p →
      p = ("S002", "Indentation is not a multiple of four") := by
  intro p h
  unfold check_indentation at h
  split at h
  · simp at h
  · split at h
    · simp at h
    · exact (Option.some.inj h).symm

lemma check_semicolon_eq (line : List Char) :
    ∀ p, check_semicolon line = some p → p = ("S003", "Unnecessary semicolon") := by
  intro p h
  simp only [check_semicolon] at h
  split at h
  · exact (Option.some.inj h).symm
  · simp at h

lemma check_spaces_eq (line : List Char) :
    ∀ p, check_spaces line = some p →
      p = ("S004", "At least two spaces required before inline") := by
  intro p h
  unfold check_spaces at h
  split at h
  · exact (Option.some.inj h).symm
  · simp at h

lemma check_todo_existing_eq (line : List Char) :
    ∀ p, check_todo_existing line = some p → p = ("S005", "TODO found") := by
  intro p h
  unfold check_todo_existing at h
  split at h
  · exact (Option.some.inj h).symm
  · simp at h

lemma check_class_declaration_spaces_eq (line : List Char) :
    ∀ p, check_class_declaration_spaces line = some p →
      p = ("S007", "Too many spaces after 'class'") := by
  intro p h
  unfold check_class_declaration_spaces at h
  split at h
  · exact (Option.some.inj h).symm
  · simp at h

lemma check_function_declaration_spaces_eq (line : List Char) :
    ∀ p, check_function_declaration_spaces line = some p →
      p = ("S007", "Too many spaces after 'def'") := by
  intro p h
  unfold check_function_declaration_spaces at h
  split at h
  · exact (Option.some.inj h).symm
  · simp at h

lemma check_blank_lines_snd_eq (counter : Nat) (line : List Char) :
    ∀ p, (check_blank_lines counter line).2 = some p →
      p = ("S006", "More than two blank lines preceding a code line") := by
  intro p h
  unfold check_blank_lines at h
  split at h
  · simp at h
  · split at h
    · exact (Option.some.inj h).symm
    · simp at h

/-- Dropping a rule outcome that cannot carry code S006 from the head of the
per-line diagnostic list leaves its S006 part unchanged. -/
lemma filter_s006_cons (file : String) (n : Nat) (o : Option (String × String))
    (os : List (Option (String × String)))
    (ho : ∀ p, o = some p → p.1 ≠ "S006") :
    (((o :: os).filterMap id).map (mkDiag file n)).filter
        (fun d => d.code == "S006")
      = ((os.filterMap id).map (mkDiag file n)).filter
          (fun d => d.code == "S006") := by
  cases o with
  | none => simp
  | some p =>
      have hp : (p.1 == "S006") = false := beq_eq_false_iff_ne.mpr (ho p rfl)
      simp [List.filter_cons, mkDiag, hp]

lemma filter_s006_cons_hit (file : String) (n : Nat) (msg : String)
    (os : List (Option (String × String))) :
    (((some ("S006", msg) :: os).filterMap id).map (mkDiag file n)).filter
        (fun d => d.code == "S006")
      = mkDiag file n ("S006", msg)
          :: ((os.filterMap id).map (mkDiag file n)).filter
              (fun d => d.code == "S006") := by
  simp [List.filter_cons, mkDiag]

/-- On any line, the S006 diagnostics among the line's emissions are exactly
what `__check_blank_lines` raised: no other rule carries code S006. -/
lemma line_diags_filter (file : String) (n counter : Nat) (line : List Char) :
    (((check_errors counter line).2.map (mkDiag file n)).filter
        (fun d => d.code == "S006"))
      = ((check_blank_lines counter line).2.toList).map (mkDiag file n) := by
  show (((rule_results counter line).filterMap id).map (mkDiag file n)).filter _ = _
  unfold rule_results
  rw [filter_s006_cons file n _ _ (fun p h => by rw [check_long_eq line p h]; decide)]
  rw [filter_s006_cons file n _ _
    (fun p h => by rw [check_indentation_eq line p h]; decide)]
  rw [filter_s006_cons file n _ _ (fun p h => by rw [check_semicolon_eq line p h]; decide)]
  rw [filter_s006_cons file n _ _ (fun p h => by rw [check_spaces_eq line p h]; decide)]
  rw [filter_s006_cons file n _ _
    (fun p h => by rw [check_todo_existing_eq line p h]; decide)]
  cases h6 : (check_blank_lines counter line).2 with
  | none =>
      rw [filter_s006_cons file n _ _ (fun p h => by simp at h)]
      rw [filter_s006_cons file n _ _
        (fun p h => by rw [check_class_declaration_spaces_eq line p h]; decide)]
      rw [filter_s006_cons file n _ _
        (fun p h => by rw [check_function_declaration_spaces_eq line p h]; decide)]
      simp
  | some p =>
      have hp := check_blank_lines_snd_eq counter line p h6
      subst hp
      rw [filter_s006_cons_hit]
      rw [filter_s006_cons file n _ _
        (fun p h => by rw [check_class_declaration_spaces_eq line p h]; decide)]
      rw [filter_s006_cons file n _ _
        (fun p h => by rw [check_function_declaration_spaces_eq line p h]; decide)]
      simp [mkDiag]

lemma scan_lines_cons (file : String) (c n : Nat) (line : List Char)
    (rest : List (List Char)) :
    scan_lines file c n (line :: rest)
      = ((check_errors c line).2.map (mkDiag file n)
           ++ (scan_lines file (check_errors c line).1 (n + 1) rest).1,
         (scan_lines file (check_errors c line).1 (n + 1) rest).2) := rfl

/-- Scanning a run of blank lines closed by one non-blank line, entering with
counter `c`: S006 fires exactly when `c` plus the run length exceeds 2, once,
on the closing line, and the counter leaves the run reset to 0. -/
lemma scan_lines_blank_run (file : String) (nb : List Char)
    (hnb : pyIsBlank nb = false) :
    ∀ (blanks : List (List Char)), (∀ l ∈ blanks, pyIsBlank l = true) →
      ∀ (c n : Nat),
        ((scan_lines file c n (blanks ++ [nb])).1.filter
            (fun d => d.code == "S006"))
          = (if c + blanks.length > 2 then
               [mkDiag file (n + blanks.length)
                 ("S006", "More than two blank lines preceding a code line")]
             else [])
        ∧ (scan_lines file c n (blanks ++ [nb])).2 = 0 := by
  intro blanks
  induction blanks with
  | nil =>
      intro _ c n
      simp only [List.nil_append, scan_lines_cons, List.length_nil, Nat.add_zero]
      have hcb : check_blank_lines c nb
          = (0, if c > 2 then
              some ("S006", "More than two blank lines preceding a code line")
            else none) := by
        unfold check_blank_lines
        rw [if_neg (by simp [hnb])]
        split <;> rfl
      constructor
      · rw [List.filter_append, line_diags_filter, hcb]
        have htail : (scan_lines file (check_errors c nb).1 (n + 1)
            ([] : List (List Char))).1 = [] := rfl
        rw [htail]
        split <;> simp [mkDiag]
      · show (check_errors c nb).1 = 0
        unfold check_errors
        rw [hcb]
  | cons b bs ih =>
      intro hb c n
      have hbb : pyIsBlank b = true := hb b (by simp)
      have hcb : check_blank_lines c b = (c + 1, none) := by
        unfold check_blank_lines
        rw [if_pos hbb]
      have hstep1 : (check_errors c b).1 = c + 1 := by
        unfold check_errors; rw [hcb]
      obtain ⟨ih1, ih2⟩ := ih (fun l hl => hb l (List.mem_cons_of_mem b hl)) (c + 1) (n + 1)
      simp only [List.cons_append, scan_lines_cons, hstep1]
      constructor
      · rw [List.filter_append, line_diags_filter, hcb]
        simp only [Option.toList, List.map_nil, List.nil_append]
        rw [ih1]
        have h1 : c + 1 + bs.length = c + (b :: bs).length := by
          simp [List.length_cons]; omega
        have h2 : n + 1 + bs.length = n + (b :: bs).length := by
          simp [List.length_cons]; omega
        rw [h1, h2]
      · exact ih2

/-- Scanning a concatenation splits: the second part is scanned from the
counter the first part left behind, with line numbers shifted. -/
lemma scan_lines_append (file : String) (l1 l2 : List (List Char)) :
    ∀ c n, scan_lines file c n (l1 ++ l2)
      = ((scan_lines file c n l1).1
           ++ (scan_lines file (scan_lines file c n l1).2 (n + l1.length) l2).1,
         (scan_lines file (scan_lines file c n l1).2 (n + l1.length) l2).2) := by
  induction l1 with
  | nil =>
      intro c n
      have h0 : (scan_lines file c n ([] : List (List Char))).2 = c := rfl
      have h1 : (scan_lines file c n ([] : List (List Char))).1 = [] := rfl
      simp [h0, h1]
  | cons a t ih =>
      intro c n
      simp only [List.cons_append, scan_lines_cons, ih, List.length_cons,
        List.append_assoc]
      have h2 : n + 1 + t.length = n + (t.length + 1) := by omega
      rw [h2]

/-- C3: a maximal run of blank lines closed by a non-blank line (scanned with
the counter entering at 0, i.e. at file start or right after a non-blank
line) yields exactly one S006, attributed to the closing non-blank line, iff
the run is longer than 2, and never otherwise; the counter resets to 0 on
every non-blank line (also when the diagnostic fires), so the scan continues
past the closing line with counter 0. -/
theorem s006_blank_run_fires (file : String) (n : Nat)
    (blanks : List (List Char)) (nb : List Char) (rest : List (List Char))
    (hb : ∀ l ∈ blanks, pyIsBlank l = true) (hnb : pyIsBlank nb = false) :
    ((scan_lines file 0 n (blanks ++ [nb])).1.filter (fun d => d.code == "S006")
        = if blanks.length > 2 then
            [⟨file, n + blanks.length, "S006",
              "More than two blank lines preceding a code line"⟩]
          else [])
    ∧ (scan_lines file 0 n (blanks ++ [nb])).2 = 0
    ∧ (∀ c line, pyIsBlank line = false → (check_blank_lines c line).1 = 0)
    ∧ (scan_lines file 0 n (blanks ++ nb :: rest)).1
        = (scan_lines file 0 n (blanks ++ [nb])).1
            ++ (scan_lines file 0 (n + (blanks.length + 1)) rest).1 := by
  obtain ⟨h1, h2⟩ := scan_lines_blank_run file nb hnb blanks hb 0 n
  refine ⟨by simpa [mkDiag] using h1, h2, ?_, ?_⟩
  · intro c line hline
    unfold check_blank_lines
    rw [if_neg (by simp [hline])]
    split <;> rfl
  · have hsplit : blanks ++ nb :: rest = (blanks ++ [nb]) ++ rest := by simp
    rw [hsplit, scan_lines_append file (blanks ++ [nb]) rest 0 n, h2]
    simp [List.length_append]

/-- C3 witness: three blank lines then `x = 1` — S006 fires once, on line 4. -/
theorem s006_blank_run_fires_witness :
    (scan_lines "file.py" 0 1
        (["\n".data, "\n".data, "\n".data] ++ ["x = 1\n".data])).1.filter
        (fun d => d.code == "S006")
      = [⟨"file.py", 4, "S006",
          "More than two blank lines preceding a code line"⟩] := by
  have h := (s006_blank_run_fires "file.py" 1 ["\n".data, "\n".data, "\n".data]
    "x = 1\n".data [] (by decide) (by decide)).1
  rw [if_pos (by decide)] at h
  exact h

/-! ## C4: S002 on blank lines -/

/-- C4 counterexample: the blank (whitespace-only) line `"  \n"` DOES fire
S002 — only the line that is exactly `"\n"` is exempt, so the claim that
S002 never fires on any blank line is false. -/
theorem whitespace_blank_line_fires_s002 :
    pyIsBlank "  \n".data = true
    ∧ check_indentation "  \n".data
        = some ("S002", "Indentation is not a multiple of four")
    ∧ (line_scanner "file.py" ["  \n".data]).map Diagnostic.code = ["S002"] := by
  decide

/-- C4 as amended: among blank lines only the line that is exactly a newline
is unconditionally exempt from S002; any other blank line fires S002 exactly
when its total character count is not a multiple of four (its `lstrip` is
empty, so the whole line counts as leading whitespace). -/
theorem s002_blank_line_exemption :
    check_indentation ['\n'] = none
    ∧ ∀ line : List Char, pyIsBlank line = true →
        (check_indentation line = none ↔ (line = ['\n'] ∨ line.length % 4 = 0)) := by
  refine ⟨rfl, ?_⟩
  intro line hb
  have hdrop : pyLstrip line = [] := by
    simp only [pyLstrip, List.dropWhile_eq_nil_iff]
    intro x hx
    exact List.all_eq_true.mp hb x hx
  by_cases hne : line = ['\n']
  · simp [hne, check_indentation]
  · simp only [check_indentation, hdrop, List.length_nil, Nat.sub_zero, if_neg hne]
    split <;> simp_all

/-! ## C5: the S004 inline-comment-spacing rule -/

/-- C5 counterexample: the comment-only line `"##\n"` (it starts with `#`,
so no code precedes the comment marker, and no non-`#` non-space character
is followed by at most one space and `#`) nevertheless fires S004: the `[^ ]`
of the code's regex can be `#` itself. -/
theorem comment_only_line_fires_s004 :
    check_spaces "##\n".data
      = some ("S004", "At least two spaces required before inline")
    ∧ spec_s004_condition "##\n".data = false
    ∧ "##\n".data.head? = some '#' := by
  decide

lemma hashAfter_iff (t : List Char) :
    hashAfterAtMostOneSpace t = true ↔
      (∃ t2, t = '#' :: t2) ∨ ∃ t2, t = ' ' :: '#' :: t2 := by
  constructor
  · intro h
    cases t with
    | nil => simp [hashAfterAtMostOneSpace] at h
    | cons c rest =>
        simp only [hashAfterAtMostOneSpace, Bool.or_eq_true, Bool.and_eq_true,
          beq_iff_eq] at h
        rcases h with rfl | ⟨rfl, h⟩
        · exact Or.inl ⟨rest, rfl⟩
        · cases rest with
          | nil => simp at h
          | cons c2 t2 =>
              simp only [beq_iff_eq] at h
              subst h
              exact Or.inr ⟨t2, rfl⟩
  · rintro (⟨t2, rfl⟩ | ⟨t2, rfl⟩) <;> simp [hashAfterAtMostOneSpace]

lemma spacesMatch_iff (line : List Char) :
    spacesMatch line = true ↔
      ∃ pre c tail, line = pre ++ c :: tail ∧ (∀ x ∈ pre, x ≠ '#') ∧ c ≠ ' ' ∧
        ((∃ t, tail = '#' :: t) ∨ ∃ t, tail = ' ' :: '#' :: t) := by
  induction line with
  | nil =>
      constructor
      · intro h; simp [spacesMatch] at h
      · rintro ⟨pre, c, tail, h, -⟩
        exact absurd h (by simp)
  | cons c0 l' ih =>
      simp only [spacesMatch, Bool.or_eq_true, Bool.and_eq_true, bne_iff_ne, ne_eq]
      constructor
      · rintro (⟨h1, h2⟩ | ⟨h1, h2⟩)
        · exact ⟨[], c0, l', rfl, by simp, h1, (hashAfter_iff l').mp h2⟩
        · obtain ⟨pre, c, tail, rfl, hpre, hc, htail⟩ := ih.mp h2
          refine ⟨c0 :: pre, c, tail, rfl, ?_, hc, htail⟩
          intro x hx
          rcases List.mem_cons.mp hx with rfl | hx
          · exact h1
          · exact hpre x hx
      · rintro ⟨pre, c, tail, heq, hpre, hc, htail⟩
        cases pre with
        | nil =>
            simp only [List.nil_append, List.cons.injEq] at heq
            obtain ⟨rfl, rfl⟩ := heq
            exact Or.inl ⟨hc, (hashAfter_iff l').mpr htail⟩
        | cons p ps =>
            simp only [List.cons_append, List.cons.injEq] at heq
            obtain ⟨rfl, h'⟩ := heq
            refine Or.inr ⟨hpre c0 (by simp), ih.mpr ⟨ps, c, tail, h', ?_, hc, htail⟩⟩
            intro x hx
            exact hpre x (List.mem_cons_of_mem c0 hx)

/-- C5 as amended: S004 fires exactly when the line starts with a (possibly
empty) run of non-`#` characters followed by a non-SPACE character — which
may itself be `#` — and then at most one space and `#`; it is therefore not
restricted to inline comments with code before the `#`.  The claim's two
concrete examples do behave as stated: one space before an inline `#` fires,
two spaces do not. -/
theorem s004_fires_iff :
    (∀ line : List Char, spacesMatch line = true ↔
        ∃ pre c tail, line = pre ++ c :: tail ∧ (∀ x ∈ pre, x ≠ '#') ∧ c ≠ ' ' ∧
          ((∃ t, tail = '#' :: t) ∨ ∃ t, tail = ' ' :: '#' :: t))
    ∧ check_spaces "print('x') # comment\n".data
        = some ("S004", "At least two spaces required before inline")
    ∧ check_spaces "print('x')  # comment\n".data = none :=
  ⟨spacesMatch_iff, by decide, by decide⟩

/-! ## C6: the S007a/S007b payloads -/

/-- C6 counterexample: the two declaration-spacing rules share code S007 but
raise DIFFERENT messages, `Too many spaces after 'class'` and
`Too many spaces after 'def'`, neither of which is the claimed shared
message `Too many spaces after 'class'/'def'`. -/
theorem s007_messages_are_distinct :
    check_class_declaration_spaces "class  Foo:\n".data
      = some ("S007", "Too many spaces after 'class'")
    ∧ check_function_declaration_spaces "def  f():\n".data
      = some ("S007", "Too many spaces after 'def'")
    ∧ (("Too many spaces after 'class'" : String)
        ≠ "Too many spaces after 'class'/'def'")
    ∧ (("Too many spaces after 'def'" : String)
        ≠ "Too many spaces after 'class'/'def'")
    ∧ (("Too many spaces after 'class'" : String) ≠ "Too many spaces after 'def'") := by
  decide

/-- C6 as amended: whenever S007a or S007b raises, the code is S007, but the
messages are rule-specific — `Too many spaces after 'class'` for the class
rule and `Too many spaces after 'def'` for the def rule — not one shared
message. -/
theorem s007_shared_code_payloads (line : List Char) :
    (∀ p, check_class_declaration_spaces line = some p →
        p = ("S007", "Too many spaces after 'class'"))
    ∧ (∀ p, check_function_declaration_spaces line = some p →
        p = ("S007", "Too many spaces after 'def'")) :=
  ⟨check_class_declaration_spaces_eq line, check_function_declaration_spaces_eq line⟩

/-! ## C7 and C8: the Tree Inspector's function-definition checks -/

lemma assignTargets_eq_some (st : Stmt) (ts : List AssignTarget) :
    assignTargets st = some ts ↔ st = Stmt.assign ts := by
  cases st <;> simp [assignTargets]

lemma nameTarget_eq_some (t : AssignTarget) (v : String × Nat) :
    nameTarget t = some v ↔ t = AssignTarget.name v.1 v.2 := by
  obtain ⟨vid, vln⟩ := v
  cases t <;> simp [nameTarget]

/-- A diagnostic is emitted by `__check_function_variables` exactly for a
Name target of a direct assignment of the body whose id the snake_case
pattern does not fully match, and it carries the target's own line. -/
lemma mem_check_function_variables (file : String) (f : FunctionDefNode)
    (d : Diagnostic) :
    d ∈ check_function_variables file f ↔
      ∃ ts, Stmt.assign ts ∈ f.body ∧
        ∃ id ln, AssignTarget.name id ln ∈ ts ∧ snakeVariableOk id.data = false ∧
          d = ⟨file, ln, "S011",
               "Variable '" ++ id ++ "' in function should be snake_case"⟩ := by
  simp only [check_function_variables, List.mem_flatten, List.mem_map,
    List.mem_filterMap, assignTargets_eq_some, nameTarget_eq_some, ite_eq_iff,
    Option.some.injEq, reduceCtorEq, and_false, false_and, or_false,
    Bool.not_eq_true]
  constructor
  · rintro ⟨l, ⟨ts, ⟨st, hst, rfl⟩, rfl⟩, hd⟩
    obtain ⟨v, hv, hif⟩ := List.mem_filterMap.mp hd
    obtain ⟨t, ht, htm⟩ := List.mem_filterMap.mp hv
    rw [nameTarget_eq_some] at htm
    subst htm
    by_cases hok : snakeVariableOk v.1.data = true
    · rw [if_pos hok] at hif
      exact absurd hif (by simp)
    · rw [if_neg hok] at hif
      exact ⟨ts, hst, v.1, v.2, ht, Bool.not_eq_true _ ▸ hok,
        (Option.some.inj hif).symm⟩
  · rintro ⟨ts, hst, id, ln, ht, hok, rfl⟩
    refine ⟨_, ⟨ts, ⟨Stmt.assign ts, hst, rfl⟩, rfl⟩, ?_⟩
    refine List.mem_filterMap.mpr ⟨(id, ln), ?_, ?_⟩
    · exact List.mem_filterMap.mpr ⟨AssignTarget.name id ln, ht, rfl⟩
    · rw [if_neg (by simp [hok])]

lemma check_function_variables_codes (file : String) (f : FunctionDefNode) :
    ∀ d ∈ check_function_variables file f, d.code = "S011" := by
  intro d hd
  obtain ⟨ts, -, id, ln, -, -, rfl⟩ :=
    (mem_check_function_variables file f d).mp hd
  rfl

/-- C7: visiting one function-definition node emits, in order, the S009
name diagnostic (when the name is bad), then one S010 per offending
positional argument in argument order, then one S012 per mutable default in
default order, followed only by S011 variable diagnostics; and every S010
and S012 diagnostic of the visit carries the function's declaration line,
never the argument's or default's own line. -/
theorem function_node_check_order (file : String) (f : FunctionDefNode) :
    (∃ varDiags,
        visit_node file (AstNode.functionDef f)
          = (if funcNameBad f.name.data then
               [⟨file, f.lineno, "S009",
                 "Function name '" ++ f.name ++ "' should use snake_case"⟩]
             else [])
            ++ ((f.args.filter fun a => argNameBad a.arg.data).map fun a =>
                  (⟨file, f.lineno, "S010",
                    "Argument name '" ++ a.arg ++ "' should be snake_case"⟩ :
                    Diagnostic))
            ++ ((f.defaults.filter fun d => isMutableDefault d.kind).map fun _ =>
                  (⟨file, f.lineno, "S012",
                    "The default argument value is mutable"⟩ : Diagnostic))
            ++ varDiags
        ∧ ∀ d ∈ varDiags, d.code = "S011")
    ∧ ∀ d ∈ visit_node file (AstNode.functionDef f),
        d.code = "S010" ∨ d.code = "S012" → d.line_number = f.lineno := by
  have hvars := check_function_variables_codes file f
  have hdecomp : visit_node file (AstNode.functionDef f)
      = check_function_name file f ++ check_arguments file f
        ++ check_function_variables file f := rfl
  have hargs : check_arguments file f
      = ((f.args.filter fun a => argNameBad a.arg.data).map fun a =>
            (⟨file, f.lineno, "S010",
              "Argument name '" ++ a.arg ++ "' should be snake_case"⟩ : Diagnostic))
        ++ ((f.defaults.filter fun d => isMutableDefault d.kind).map fun _ =>
            (⟨file, f.lineno, "S012",
              "The default argument value is mutable"⟩ : Diagnostic)) := by
    unfold check_arguments
    rw [filterMap_ite_eq_map_filter, filterMap_ite_eq_map_filter]
  constructor
  · refine ⟨check_function_variables file f, ?_, hvars⟩
    rw [hdecomp, hargs, check_function_name, List.append_assoc, List.append_assoc]
    split <;> simp
  · intro d hd hcode
    rw [hdecomp] at hd
    rcases List.mem_append.mp hd with hd' | hd'
    · rcases List.mem_append.mp hd' with hd'' | hd''
      · unfold check_function_name at hd''
        split at hd''
        · rcases List.mem_singleton.mp hd'' with rfl
          rcases hcode with h | h <;> simp at h
        · simp at hd''
      · rw [hargs] at hd''
        rcases List.mem_append.mp hd'' with h | h <;>
          · obtain ⟨a, -, rfl⟩ := List.mem_map.mp h
            rfl
    · have := hvars d hd'
      rcases hcode with h | h <;> rw [this] at h <;> simp at h

/-- C8: S011 fires, attributed to the Name target's own line, exactly for
the Name targets of the direct assignment statements of the body whose ids
the pattern `^[a-z][a-z0-9]+(_[a-z0-9]+)*$` does not fully match; in
particular `Result = 1` and `r = 1` in a function body each fire S011 at the
assignment's line, and `result_1 = 1` does not fire. -/
theorem s011_membership_and_examples :
    (∀ (file : String) (f : FunctionDefNode) (d : Diagnostic),
        d ∈ check_function_variables file f ↔
          ∃ ts, Stmt.assign ts ∈ f.body ∧
            ∃ id ln, AssignTarget.name id ln ∈ ts ∧ snakeVariableOk id.data = false ∧
              d = ⟨file, ln, "S011",
                   "Variable '" ++ id ++ "' in function should be snake_case"⟩)
    ∧ check_function_variables "file.py"
        ⟨"fn", 1, [], [], [Stmt.assign [AssignTarget.name "Result" 2]]⟩
        = [⟨"file.py", 2, "S011", "Variable 'Result' in function should be snake_case"⟩]
    ∧ check_function_variables "file.py"
        ⟨"fn", 1, [], [], [Stmt.assign [AssignTarget.name "r" 2]]⟩
        = [⟨"file.py", 2, "S011", "Variable 'r' in function should be snake_case"⟩]
    ∧ check_function_variables "file.py"
        ⟨"fn", 1, [], [], [Stmt.assign [AssignTarget.name "result_1" 2]]⟩ = [] :=
  ⟨mem_check_function_variables, by decide, by decide, by decide⟩

/-! ## C9: repeated analysis of one file -/

/-- C9: any analyzer whose blank-line counter is 0 for the path — in
particular the fresh instance each `call_analyzer_error` constructs —
produces the same diagnostic list as `call_analyzer_error` itself, and
`__init__` starts the counter at 0.  A repeated analysis of an unchanged
file therefore reproduces the first run's list, identically and in the same
order, carrying no blank-line state over from the previous run. -/
theorem repeated_analysis_identical (path : String) (src : SourceFile) :
    (∀ a : StaticCodeAnalyzer, a.path_file = path → a.count_blank_lines_in_row = 0 →
        (a.run src).1 = call_analyzer_error path src)
    ∧ (StaticCodeAnalyzer.init path).count_blank_lines_in_row = 0 := by
  refine ⟨?_, rfl⟩
  rintro ⟨p, c⟩ hp hc
  cases hp; cases hc
  rfl

/-! ## C10: only class and (synchronous) function definitions are checked -/

/-- C10: visiting an async-function-definition node emits nothing — no
naming or mutable-default rule ever runs on it — and restricting any walked
node list to exactly the class-definition and synchronous
function-definition nodes leaves the Tree Inspector's output unchanged. -/
theorem async_function_defs_unchecked (file : String) (f : FunctionDefNode)
    (nodes : List AstNode) :
    visit_node file (AstNode.asyncFunctionDef f) = []
    ∧ tree_inspector file (nodes.filter fun n =>
        match n with
        | AstNode.classDef _ _ => true
        | AstNode.functionDef _ => true
        | _ => false) = tree_inspector file nodes := by
  refine ⟨rfl, ?_⟩
  induction nodes with
  | nil => rfl
  | cons n t ih =>
      cases n <;> simp [tree_inspector, visit_node, List.filter_cons] <;>
        simpa [tree_inspector] using ih

end Analyser
